import Mathlib

/-!
# TubeInsight backend — shallow embedding and verification

This file embeds the core of the TubeInsight backend
(`backend/tubeinsight_app/services/{youtube_service,sentiment_service,
supabase_service,openai_service}.py`) as executable Lean definitions and
proves or refutes the specification claims about it.

External effects (YouTube Data API, OpenAI, the Supabase tables) are
modelled as explicit oracle values or oracle functions passed in; the
control flow, filtering, grouping, coercion and error mapping are
translated statement by statement from the Python source.
-/

set_option autoImplicit false

namespace TubeInsight

/-! ## Python-value helpers

Python truthiness for optional strings: `None` and the empty string are
falsy, every other string is truthy.  `dict.get` on an absent key and a
key stored with value `None` are both modelled as `Option.none` (the two
are indistinguishable to every `.get`-based read the embedded code
performs). -/

def truthyStr : Option String → Bool
  | none => false
  | some s => !(s == "")

/-- Python `a or b` for optional strings: the left operand if it is
truthy, otherwise the right operand verbatim. -/
def pyOrStr (a b : Option String) : Option String :=
  if truthyStr a then a else b

/-! ## `youtube_service.extract_video_id` (youtube_service.py lines 12-45)

Each regex in the Python `patterns` list is an optional scheme
(`https://` or `http://`), an optional `www.` (absent for the
`youtu.be` pattern), a literal host/path part, and a capture group of
exactly eleven characters of the class `[a-zA-Z0-9_-]`.  Such a regex is
equivalent to: at some position of the input, one of finitely many
literal prefix variants occurs, followed by at least eleven characters
of the id class; `re.search` takes the leftmost such position and the
capture group is those eleven characters.  Variants at one position are
mutually exclusive (they differ in their first differing character), so
scanning positions left to right is faithful to `re.search`. -/

def isIdChar (c : Char) : Bool :=
  c.isAlpha || c.isDigit || c == '_' || c == '-'

/-- Scheme and `www.` variants of a literal host/path part, longest
(most specific) first, as the greedy optional groups try them. -/
def schemeHostVariants (base : String) : List String :=
  ["https://www." ++ base, "http://www." ++ base,
   "https://" ++ base, "http://" ++ base,
   "www." ++ base, base]

/-- Scheme variants only (the `youtu.be` pattern has no `www.` group). -/
def schemeOnlyVariants (base : String) : List String :=
  ["https://" ++ base, "http://" ++ base, base]

/-- The ordered pattern list of `extract_video_id`, each pattern given by
its literal prefix variants. -/
def url_patterns : List (List String) :=
  [schemeHostVariants "youtube.com/watch?v=",
   schemeOnlyVariants "youtu.be/",
   schemeHostVariants "youtube.com/embed/",
   schemeHostVariants "youtube.com/v/",
   schemeHostVariants "youtube.com/e/",
   schemeHostVariants "youtube.com/shorts/"]

/-- The capture group `([a-zA-Z0-9_-]{11})`: the next eleven characters,
provided there are at least eleven and all are in the id class. -/
def matchIdAt (rest : List Char) : Option String :=
  let id := rest.take 11
  if id.length == 11 && id.all isIdChar then some (String.mk id) else none

/-- Try every prefix variant of one pattern at the current position. -/
def matchVariantsHere (vs : List String) (s : List Char) : Option String :=
  vs.findSome? fun v =>
    if v.data.isPrefixOf s then matchIdAt (s.drop v.length) else none

/-- `re.search` for one pattern: scan positions left to right, first
matching position wins. -/
def reSearchIdAux (vs : List String) : List Char → Option String
  | [] => matchVariantsHere vs []
  | c :: t =>
    match matchVariantsHere vs (c :: t) with
    | some r => some r
    | none => reSearchIdAux vs t

def re_search_id (vs : List String) (url : String) : Option String :=
  reSearchIdAux vs url.data

/-- The `for pattern in patterns` loop: first pattern with a match wins. -/
def searchPatterns (url : String) : Option String :=
  url_patterns.findSome? fun vs => re_search_id vs url

/-! ### The generic query-parameter fallback (youtube_service.py lines 34-42)

The fallback uses the standard-library `urllib.parse.urlparse` and
`parse_qs`, modelled here after their documented behaviour (CPython
`urllib/parse.py`): scheme stripping, `//netloc` extraction stopping at
`/?#`, fragment split before query split, hostname = netloc after the
last `@`, up to `:` (or the `[...]` bracket contents), lowercased, `None`
when empty.  `parse_qs` splits the query on `&`, drops fields without
`=` or with an empty raw value (`keep_blank_values=False`), and decodes
`+` and `%XX` escapes.  Multi-byte UTF-8 percent sequences decode here
byte by byte rather than as one code point; this preserves emptiness and
never affects escape-free queries. -/

def splitAtFirst (d : Char) : List Char → Option (List Char × List Char)
  | [] => none
  | c :: t =>
    if c == d then some ([], t)
    else (splitAtFirst d t).map fun p => (c :: p.1, p.2)

def isSchemeChar (c : Char) : Bool :=
  c.isAlpha || c.isDigit || c == '+' || c == '-' || c == '.'

/-- `urlsplit` scheme handling: strip `scheme:` when the part before the
first `:` is non-empty, starts with a letter and has only scheme chars. -/
def stripScheme (s : List Char) : List Char :=
  match splitAtFirst ':' s with
  | none => s
  | some (before, after) =>
    match before with
    | [] => s
    | c0 :: _ => if c0.isAlpha && before.all isSchemeChar then after else s

/-- netloc runs up to the first of `/`, `?`, `#`. -/
def netlocSpan : List Char → List Char × List Char
  | [] => ([], [])
  | c :: t =>
    if c == '/' || c == '?' || c == '#' then ([], c :: t)
    else
      let p := netlocSpan t
      (c :: p.1, p.2)

/-- The part of the netloc after its last `@` (userinfo stripped). -/
def afterLastAt (l : List Char) : List Char :=
  (l.reverse.takeWhile (fun c => !(c == '@'))).reverse

/-- `hostname`: bracketed IPv6 contents, or the part before the first
`:`; lowercased; `None` when empty. -/
def hostFromNetloc (netloc : List Char) : Option String :=
  let hi := afterLastAt netloc
  let host :=
    match splitAtFirst '[' hi with
    | some (_, br) =>
      match splitAtFirst ']' br with
      | some (h, _) => h
      | none => br
    | none =>
      match splitAtFirst ':' hi with
      | some (h, _) => h
      | none => hi
  if host.isEmpty then none else some (String.mk (host.map Char.toLower))

structure UrlParts where
  hostname : Option String
  path : String
  query : String
deriving DecidableEq

def pyUrlparse (url : String) : UrlParts :=
  let s0 := stripScheme url.data
  let nl :=
    match s0 with
    | '/' :: '/' :: t => netlocSpan t
    | _ => ([], s0)
  let afterFrag :=
    match splitAtFirst '#' nl.2 with
    | some p => p.1
    | none => nl.2
  let pq :=
    match splitAtFirst '?' afterFrag with
    | some p => p
    | none => (afterFrag, [])
  ⟨hostFromNetloc nl.1, String.mk pq.1, String.mk pq.2⟩

def isHexDigit (c : Char) : Bool :=
  c.isDigit || (pleq 'a' c && pleq c 'f') || (pleq 'A' c && pleq c 'F')
where pleq (a b : Char) : Bool := a.toNat ≤ b.toNat

def hexVal (c : Char) : Nat :=
  if c.isDigit then c.toNat - 48
  else if c.toNat ≥ 97 then c.toNat - 97 + 10
  else c.toNat - 65 + 10

/-- `unquote`: decode `%XX` escapes with valid hex, keep a stray `%`. -/
def pctDecode : List Char → List Char
  | [] => []
  | '%' :: a :: b :: t =>
    if isHexDigit a && isHexDigit b then
      Char.ofNat (hexVal a * 16 + hexVal b) :: pctDecode t
    else '%' :: pctDecode (a :: b :: t)
  | c :: t => c :: pctDecode t

/-- `unquote(value.replace('+', ' '))` as `parse_qsl` applies it. -/
def unquotePlus (l : List Char) : List Char :=
  pctDecode (l.map fun c => if c == '+' then ' ' else c)

/-- One `name=value` field of `parse_qsl`: dropped without `=` or with an
empty raw value (`keep_blank_values=False`), decoded otherwise. -/
def parseQsField (f : List Char) : Option (String × String) :=
  match splitAtFirst '=' f with
  | none => none
  | some (n, v) =>
    if v.isEmpty then none
    else some (String.mk (unquotePlus n), String.mk (unquotePlus v))

def parse_qsl (query : String) : List (String × String) :=
  (query.data.splitOn '&').filterMap parseQsField

/-- `parse_qs(query)[key][0]`: the first retained value for `key`. -/
def firstQueryValue (query key : String) : Option String :=
  ((parse_qsl query).filter fun p => p.1 == key).head?.map Prod.snd

/-- youtube_service.py lines 35-42.  `'youtube.com' in parsed_url.hostname`
is a substring test; when `hostname` is `None` it raises `TypeError`,
which the bare `except` swallows, falling through to `return None`. -/
def strContainsSub (hay needle : String) : Bool :=
  aux needle.data hay.data
where aux (needle : List Char) : List Char → Bool
  | [] => needle.isEmpty
  | c :: t => needle.isPrefixOf (c :: t) || aux needle t

def fallback_query_v (url : String) : Option String :=
  match (pyUrlparse url).hostname with
  | none => none
  | some h =>
    if strContainsSub h "youtube.com" && (pyUrlparse url).path == "/watch" then
      match firstQueryValue (pyUrlparse url).query "v" with
      | some v => if v == "" then none else some v
      | none => none
    else none

/-- youtube_service.py lines 12-45: ordered patterns first, then the
generic query-parameter fallback, then failure (`None`). -/
def extract_video_id (url : String) : Option String :=
  match searchPatterns url with
  | some vid => some vid
  | none => fallback_query_v url

/-! ## Data shapes -/

/-- The comment dictionaries built in `fetch_video_comments`
(youtube_service.py lines 133-139); every field is a `.get` from the
provider response, so possibly `None`. -/
structure RawComment where
  id : Option String
  text_content : Option String
  author_name : Option String
  published_at : Option String
  like_count : Nat
deriving DecidableEq

/-- The result of `fetch_video_details` (youtube_service.py lines 83-87);
the dictionary always carries the `title` and `channel_title` keys, whose
values may be `None`. -/
structure VideoDetails where
  title : Option String
  channel_title : Option String
deriving DecidableEq

/-- One element of the list returned by
`classify_comment_sentiments_batch`: a parsed provider JSON object read
only through `.get('id')` and `.get('category', 'Neutral')`. -/
structure Classification where
  id : Option String
  category : Option String
deriving DecidableEq

/-! ## `youtube_service.fetch_video_comments` (youtube_service.py lines 99-151)

The provider call either yields a list of parsed comment items or raises;
on an exception whose text contains `commentsDisabled` the function
returns the empty list, on any other exception it returns `None`.  The
item loop appends at most `MAX_COMMENTS_TO_FETCH` comments. -/

def MAX_COMMENTS_TO_FETCH : Nat := 100

/-- The outcome of the provider `commentThreads().list(...).execute()`
call: the parsed items, or an exception with its message text. -/
inductive ApiOutcome where
  | items (l : List RawComment)
  | raises (msg : String)

def fetch_video_comments (video_id : String) (api : ApiOutcome) :
    Option (List RawComment) :=
  if video_id == "" then none
  else
    match api with
    | .items l => some (l.take MAX_COMMENTS_TO_FETCH)
    | .raises msg =>
      if strContainsSub msg "commentsDisabled" then some [] else none

/-! ## `sentiment_service` grouping and breakdown (sentiment_service.py lines 74-128) -/

def SENTIMENT_CATEGORIES : List String := ["Positive", "Neutral", "Critical", "Toxic"]

/-- sentiment_service.py lines 75-78: keep only comments whose `id` and
`text_content` are truthy. -/
def comments_for_openai (raw : List RawComment) : List RawComment :=
  raw.filter fun c => truthyStr c.id && truthyStr c.text_content

/-- The dict comprehension of line 96,
`{c['id']: c['text_content'] for c in comments_for_openai}`: an
association list in insertion order; on the filtered input both keys
exist and are truthy, so nothing is dropped here. -/
def mkLookup (cs : List RawComment) : List (String × String) :=
  cs.filterMap fun c => c.id.bind fun i => c.text_content.map fun t => (i, t)

/-- Python dict lookup over `mkLookup`: the last binding of a key wins. -/
def dictLookup (ps : List (String × String)) (k : String) : Option String :=
  (ps.reverse.find? fun p => p.1 == k).map Prod.snd

/-- Lines 99-103: `classification.get('category', 'Neutral')`, coerced to
`Neutral` when not one of the four expected categories. -/
def effectiveCategory (e : Classification) : String :=
  let category := e.category.getD "Neutral"
  if SENTIMENT_CATEGORIES.contains category then category else "Neutral"

/-- Line 105: `if comment_id and comment_id in comment_text_lookup`. -/
def isMatched (lookup : List (String × String)) (e : Classification) : Bool :=
  match e.id with
  | none => false
  | some i => !(i == "") && (dictLookup lookup i).isSome

/-- The two `defaultdict(list)` accumulators of lines 92-93, read through
`.get(category, [])` later. -/
structure Groups where
  ids : String → List String
  texts : String → List String

def emptyGroups : Groups := ⟨fun _ => [], fun _ => []⟩

def Groups.add (g : Groups) (cat i t : String) : Groups :=
  ⟨fun k => if k = cat then g.ids k ++ [i] else g.ids k,
   fun k => if k = cat then g.texts k ++ [t] else g.texts k⟩

/-- One iteration of the `for classification in classified_sentiments`
loop (lines 98-107). -/
def groupStep (lookup : List (String × String)) (g : Groups)
    (e : Classification) : Groups :=
  let category := effectiveCategory e
  match e.id with
  | none => g
  | some i =>
    if i == "" then g
    else
      match dictLookup lookup i with
      | none => g
      | some t => g.add category i t

def groupByCategory (valid : List RawComment) (cls : List Classification) :
    Groups :=
  cls.foldl (groupStep (mkLookup valid)) emptyGroups

/-- Python `str.lower()` on the ASCII category names. -/
def lowerStr (s : String) : String := String.mk (s.data.map Char.toLower)

/-- Line 122. -/
def noCommentsMsg (category : String) : String :=
  "No " ++ lowerStr category ++ " comments found for this video."

/-- Line 120. -/
def couldNotMsg (category : String) : String :=
  "Could not generate summary for " ++ lowerStr category ++ " comments."

structure BreakdownEntry where
  category : String
  count : Nat
  summary : String
deriving DecidableEq

/-- sentiment_service.py lines 112-128: one entry per category of
`SENTIMENT_CATEGORIES` in order; the summarizer (an oracle for
`openai_service.summarize_comments_by_category`, `None` meaning the call
failed) is consulted only when the category has comment texts; its
failure is replaced by the fixed fallback message. -/
def buildSentimentBreakdown (summarize : String → List String → Option String)
    (g : Groups) : List BreakdownEntry :=
  SENTIMENT_CATEGORIES.map fun category =>
    let category_comment_texts := g.texts category
    let summary :=
      if category_comment_texts.isEmpty then noCommentsMsg category
      else
        match summarize category category_comment_texts with
        | some s => s
        | none => couldNotMsg category
    ⟨category, (g.ids category).length, summary⟩

/-- Sum of the per-category counts of a breakdown. -/
def sumCounts (b : List BreakdownEntry) : Nat :=
  (b.map BreakdownEntry.count).sum

/-! ## `supabase_service.get_or_create_video` (supabase_service.py lines 19-74)

The `videos` table is modelled as a map from `youtube_video_id` to its
row; timestamps as an abstract `Nat` (`current_timestamp`).  The storage
client outcomes are oracle booleans: `raises` (an exception anywhere in
the `try` body → `except` → `None`), `updateOk` / `insertOk` (whether
`update(...)`/`insert(...).execute()` returns data). -/

structure VideoRow where
  youtube_video_id : String
  video_title : Option String
  channel_title : Option String
  last_cached_comment_retrieval_timestamp : Nat
  created_at : Nat
  updated_at : Nat
deriving DecidableEq

structure DbOutcome where
  raises : Bool
  updateOk : Bool
  insertOk : Bool
deriving DecidableEq

/-- The python signature `get_or_create_video(video_id, video_title,
channel_title)` (supabase_service.py line 19): its three parameter
names, in order.  None of them defaults and there is no `thumbnail`
parameter of any kind. -/
def get_or_create_video_param_names : List String :=
  ["video_id", "video_title", "channel_title"]

/-- Returns the resulting record (or `None` on failure) and the table
after the call.  On an existing row the mutable fields are written with
Python `or` coalescing (`video_title or response.data.get('video_title')`,
line 42) and the retrieval/update timestamps refreshed; when the update
reports no data the pre-existing row is returned unchanged (line 53). -/
def get_or_create_video (db : DbOutcome) (table : String → Option VideoRow)
    (now : Nat) (video_id : String)
    (video_title channel_title : Option String) :
    Option VideoRow × (String → Option VideoRow) :=
  if db.raises then (none, table)
  else
    match table video_id with
    | some existing =>
      let updated : VideoRow :=
        { existing with
          video_title := pyOrStr video_title existing.video_title
          channel_title := pyOrStr channel_title existing.channel_title
          last_cached_comment_retrieval_timestamp := now
          updated_at := now }
      if db.updateOk then
        (some updated, fun k => if k = video_id then some updated else table k)
      else (some existing, table)
    | none =>
      let row : VideoRow := ⟨video_id, video_title, channel_title, now, now, now⟩
      if db.insertOk then
        (some row, fun k => if k = video_id then some row else table k)
      else (none, table)

/-! ## `supabase_service.get_analysis_detail_by_id` (supabase_service.py lines 237-272)

The select filters by `analysis_id` AND `user_id`; `maybe_single()`
yields the row when exactly one matches, no data when none matches, and
an error (hence `None` through lines 261-268) otherwise. -/

structure AnalysisRow where
  analysis_id : String
  user_id : String
  youtube_video_id : String
  total_comments_analyzed : Nat
deriving DecidableEq

def get_analysis_detail_by_id (table : List AnalysisRow)
    (analysis_id user_id : String) : Option AnalysisRow :=
  match table.filter fun r =>
      r.analysis_id == analysis_id && r.user_id == user_id with
  | [r] => some r
  | _ => none

/-- supabase_service.py lines 275-306: the placeholder returns `[]`, or
`None` if the body raises. -/
def get_comments_by_date_for_video (raises : Bool) :
    Option (List (String × Nat)) :=
  if raises then none else some []

/-! ## `sentiment_service.process_video_analysis` (sentiment_service.py lines 13-162)

External effects are collected in a `PipelineEnv` oracle record.  The
orchestrator's call of line 58-63 passes four positional arguments
(`video_id`, the title, the channel title, and the
`video_details.get('snippet', {})...` thumbnail chain) to
`get_or_create_video`, which declares exactly three parameters; CPython
raises `TypeError` while binding the call, before the callee body runs,
and nothing in `process_video_analysis` or below it catches it. -/

/-- Number of positional arguments at the call site of lines 58-63. -/
def process_call_arg_count : Nat := 4

inductive PyExn where
  | typeError (msg : String)
deriving DecidableEq

structure ErrorDict where
  error : String
  status_code : Nat
deriving DecidableEq

structure FinalResponse where
  analysisId : String
  videoId : String
  videoTitle : Option String
  analysisTimestamp : Nat
  totalCommentsAnalyzed : Nat
  sentimentBreakdown : List BreakdownEntry
  commentsByDate : List (String × Nat)
deriving DecidableEq

inductive PipelineOutcome where
  | err (e : ErrorDict)
  | ok (r : FinalResponse)
deriving DecidableEq

structure PipelineEnv where
  video_details_result : Option VideoDetails
  comments_api : ApiOutcome
  video_db : DbOutcome
  videos_table : String → Option VideoRow
  now : Nat
  save_comments_ok : Bool
  classify_result : Option (List Classification)
  summarize : String → List String → Option String
  save_analysis_result : Option String
  comments_by_date_raises : Bool

def process_video_analysis (env : PipelineEnv) (video_url : String)
    (_user_id : String) : Except PyExn PipelineOutcome :=
  -- 1. Extract Video ID (lines 34-37)
  match extract_video_id video_url with
  | none => .ok (.err ⟨"Invalid YouTube video URL provided.", 400⟩)
  | some video_id =>
    -- 2. Fetch video details and comments (lines 42-53); an empty
    -- comment list is only logged, not an error.
    match env.video_details_result with
    | none => .ok (.err ⟨"Could not fetch video details from YouTube.", 502⟩)
    | some video_details =>
      match fetch_video_comments video_id env.comments_api with
      | none => .ok (.err ⟨"Could not fetch comments from YouTube.", 502⟩)
      | some yt_comments_raw =>
        -- 3. Save/update video (lines 58-66): four positional arguments
        -- against a three-parameter definition, so the call itself
        -- raises TypeError and the rest of the function is dead code.
        if process_call_arg_count = get_or_create_video_param_names.length then
          match (get_or_create_video env.video_db env.videos_table env.now
              video_id video_details.title video_details.channel_title).1 with
          | none => .ok (.err ⟨"Database error while saving video information.", 500⟩)
          | some _ =>
            -- lines 68-72: save_comments_batch failure is only logged.
            let _ := env.save_comments_ok
            let comments_for := comments_for_openai yt_comments_raw
            let total_comments_for_analysis := comments_for.length
            -- 4. Classify (lines 83-89): the provider is only called on
            -- a non-empty batch.
            match (if comments_for.isEmpty then some [] else env.classify_result) with
            | none => .ok (.err ⟨"AI sentiment classification failed.", 503⟩)
            | some classified_sentiments =>
              let g := groupByCategory comments_for classified_sentiments
              -- 5. Summaries (lines 112-128)
              let breakdown := buildSentimentBreakdown env.summarize g
              -- 6. Save analysis results (lines 133-141)
              match env.save_analysis_result with
              | none => .ok (.err ⟨"Database error while saving analysis results.", 500⟩)
              | some analysis_id =>
                -- 7. Final response (lines 146-162)
                let cbd := (get_comments_by_date_for_video
                    env.comments_by_date_raises).getD []
                .ok (.ok ⟨analysis_id, video_id, video_details.title, env.now,
                    total_comments_for_analysis, breakdown, cbd⟩)
        else
          .error (.typeError
            "get_or_create_video() takes 3 positional arguments but 4 were given")

/-! ## Helper lemmas about grouping -/

theorem Groups.add_ids (g : Groups) (cat i t k : String) :
    (g.add cat i t).ids k = if k = cat then g.ids k ++ [i] else g.ids k := rfl

theorem Groups.add_texts (g : Groups) (cat i t k : String) :
    (g.add cat i t).texts k = if k = cat then g.texts k ++ [t] else g.texts k := rfl

/-- One loop iteration appends the comment id to exactly the bucket of
the (coerced) category, and only for a matched id. -/
theorem groupStep_ids (lookup : List (String × String)) (g : Groups)
    (e : Classification) (c : String) :
    (groupStep lookup g e).ids c =
      if (isMatched lookup e && (effectiveCategory e == c)) = true
      then g.ids c ++ [e.id.getD ""] else g.ids c := by
  unfold groupStep isMatched
  rcases h : e.id with _ | i
  · simp [h]
  · simp only [h, Option.getD_some]
    by_cases hi : i = ""
    · simp [hi]
    · have hibeq : (i == "") = false := by simp [hi]
      cases hl : dictLookup lookup i with
      | none => simp [hibeq, hl]
      | some t =>
        simp only [hibeq, Bool.not_false, hl, Option.isSome_some, Bool.true_and,
          Bool.and_self]
        by_cases hc : effectiveCategory e = c
        · simp [hc, Groups.add_ids]
        · have hb : (effectiveCategory e == c) = false := by simp [hc]
          have hcs : ¬(c = effectiveCategory e) := fun hcc => hc hcc.symm
          simp [hb, Groups.add_ids, hcs]

/-- Mirror of `groupStep_ids` for the texts bucket: the appended text is
the lookup value of the matched id. -/
theorem groupStep_texts (lookup : List (String × String)) (g : Groups)
    (e : Classification) (c : String) :
    (groupStep lookup g e).texts c =
      if (isMatched lookup e && (effectiveCategory e == c)) = true
      then g.texts c ++ [(dictLookup lookup (e.id.getD "")).getD ""]
      else g.texts c := by
  unfold groupStep isMatched
  rcases h : e.id with _ | i
  · simp [h]
  · simp only [h, Option.getD_some]
    by_cases hi : i = ""
    · simp [hi]
    · have hibeq : (i == "") = false := by simp [hi]
      cases hl : dictLookup lookup i with
      | none => simp [hibeq, hl]
      | some t =>
        simp only [hibeq, Bool.not_false, hl, Option.isSome_some, Bool.true_and,
          Bool.and_self, Option.getD_some]
        by_cases hc : effectiveCategory e = c
        · simp [hc, Groups.add_texts]
        · have hb : (effectiveCategory e == c) = false := by simp [hc]
          have hcs : ¬(c = effectiveCategory e) := fun hcc => hc hcc.symm
          simp [hb, Groups.add_texts, hcs]

/-- Characterization of the id buckets of the grouping fold: the ids of
bucket `c`, in order, are exactly the ids of the matched classifier
entries whose coerced category is `c`. -/
theorem foldl_groupStep_ids (lookup : List (String × String))
    (cls : List Classification) (g : Groups) (c : String) :
    (cls.foldl (groupStep lookup) g).ids c =
      g.ids c ++ ((cls.filter fun e =>
        isMatched lookup e && (effectiveCategory e == c)).map
        fun e => e.id.getD "") := by
  induction cls generalizing g with
  | nil => simp
  | cons e rest ih =>
    simp only [List.foldl_cons, List.filter_cons]
    rw [ih, groupStep_ids]
    by_cases hm : (isMatched lookup e && (effectiveCategory e == c)) = true
    · simp [hm, List.append_assoc]
    · simp [hm]

/-- Mirror characterization for the text buckets. -/
theorem foldl_groupStep_texts (lookup : List (String × String))
    (cls : List Classification) (g : Groups) (c : String) :
    (cls.foldl (groupStep lookup) g).texts c =
      g.texts c ++ ((cls.filter fun e =>
        isMatched lookup e && (effectiveCategory e == c)).map
        fun e => (dictLookup lookup (e.id.getD "")).getD "") := by
  induction cls generalizing g with
  | nil => simp
  | cons e rest ih =>
    simp only [List.foldl_cons, List.filter_cons]
    rw [ih, groupStep_texts]
    by_cases hm : (isMatched lookup e && (effectiveCategory e == c)) = true
    · simp [hm, List.append_assoc]
    · simp [hm]

theorem groupByCategory_ids (valid : List RawComment)
    (cls : List Classification) (c : String) :
    (groupByCategory valid cls).ids c =
      (cls.filter fun e => isMatched (mkLookup valid) e &&
        (effectiveCategory e == c)).map fun e => e.id.getD "" := by
  unfold groupByCategory
  rw [foldl_groupStep_ids]
  simp [emptyGroups]

theorem groupByCategory_texts (valid : List RawComment)
    (cls : List Classification) (c : String) :
    (groupByCategory valid cls).texts c =
      (cls.filter fun e => isMatched (mkLookup valid) e &&
        (effectiveCategory e == c)).map
        fun e => (dictLookup (mkLookup valid) (e.id.getD "")).getD "" := by
  unfold groupByCategory
  rw [foldl_groupStep_texts]
  simp [emptyGroups]

/-- The id bucket and the text bucket of one category always have the
same length (both are appended to together). -/
theorem groupByCategory_ids_texts_length (valid : List RawComment)
    (cls : List Classification) (c : String) :
    ((groupByCategory valid cls).ids c).length =
      ((groupByCategory valid cls).texts c).length := by
  rw [groupByCategory_ids, groupByCategory_texts]
  simp

/-- The coerced category is always one of the four expected ones. -/
theorem effectiveCategory_mem (e : Classification) :
    effectiveCategory e = "Positive" ∨ effectiveCategory e = "Neutral" ∨
    effectiveCategory e = "Critical" ∨ effectiveCategory e = "Toxic" := by
  unfold effectiveCategory
  by_cases h : e.category.getD "Neutral" ∈ SENTIMENT_CATEGORIES
  · have hc : SENTIMENT_CATEGORIES.contains (e.category.getD "Neutral") = true := by
      simpa using h
    simp only [hc, if_true]
    simp only [SENTIMENT_CATEGORIES, List.mem_cons, List.not_mem_nil, or_false] at h
    rcases h with h1 | h1 | h1 | h1 <;> simp [h1]
  · have hc : SENTIMENT_CATEGORIES.contains (e.category.getD "Neutral") = false := by
      simpa using h
    simp only [hc]
    simp

/-- Splitting the matched entries over the four category buckets loses
and duplicates nothing: the bucket sizes add up to the number of matched
entries. -/
theorem sum_bucket_lengths (lookup : List (String × String))
    (cls : List Classification) :
    ((SENTIMENT_CATEGORIES.map fun c =>
      (cls.filter fun e => isMatched lookup e &&
        (effectiveCategory e == c)).length).sum) =
      (cls.filter fun e => isMatched lookup e).length := by
  induction cls with
  | nil => simp
  | cons e rest ih =>
    by_cases hm : isMatched lookup e = true
    · rcases effectiveCategory_mem e with h | h | h | h <;>
        simp_all [SENTIMENT_CATEGORIES, List.filter_cons, hm, h] <;> omega
    · have hm2 : isMatched lookup e = false := by
        simpa using hm
      simp_all [SENTIMENT_CATEGORIES, List.filter_cons, hm2]

/-- The sum of the four displayed counts, as a function of the buckets. -/
theorem sumCounts_build (s : String → List String → Option String)
    (g : Groups) :
    sumCounts (buildSentimentBreakdown s g) =
      (SENTIMENT_CATEGORIES.map fun c => (g.ids c).length).sum := rfl

/-- Every category of `SENTIMENT_CATEGORIES` contributes its breakdown
entry to the result of `buildSentimentBreakdown`. -/
theorem build_entry_mem (s : String → List String → Option String)
    (g : Groups) (c : String) (hc : c ∈ SENTIMENT_CATEGORIES) :
    (⟨c, (g.ids c).length,
      if (g.texts c).isEmpty then noCommentsMsg c
      else
        match s c (g.texts c) with
        | some t => t
        | none => couldNotMsg c⟩ : BreakdownEntry) ∈
      buildSentimentBreakdown s g :=
  List.mem_map_of_mem _ hc

/-! ## Claim C2 -/

/-- C2 counterexample.  One fetched comment with a truthy id and text
(`totalCommentsAnalyzed = 1`), a classifier output that omits that id
(the empty list): the four per-category counts sum to 0 ≠ 1.  The
claimed invariant therefore does not hold for every classifier output. -/
theorem claim_c2_counterexample :
    ¬ (sumCounts (buildSentimentBreakdown (fun _ _ => none)
        (groupByCategory
          (comments_for_openai [⟨some "c1", some "Nice video!", none, none, 0⟩])
          [])) =
      (comments_for_openai
        [⟨some "c1", some "Nice video!", none, none, 0⟩]).length) := by
  decide

/-- C2 amended.  For every fetched comment list and every classifier
output, the sum of the four per-category counts equals the number of
classifier output entries whose id is truthy and matches a valid fetched
comment id — hence it equals `totalCommentsAnalyzed` exactly when the
classifier returns one matching entry per valid comment (and differs
when entries are omitted, repeated, or carry unknown ids). -/
theorem claim_c2_sum_counts_amended (raw : List RawComment)
    (cls : List Classification) (s : String → List String → Option String) :
    sumCounts (buildSentimentBreakdown s
      (groupByCategory (comments_for_openai raw) cls)) =
      (cls.filter fun e =>
        isMatched (mkLookup (comments_for_openai raw)) e).length := by
  rw [sumCounts_build]
  simp only [groupByCategory_ids, List.length_map]
  exact sum_bucket_lengths _ cls

/-! ## Claim C8 -/

/-- C8 counterexample.  A classifier entry with an unknown category
label `Angry` but no id is not counted under Neutral (nor anywhere):
grouping leaves every bucket empty. -/
theorem claim_c8_counterexample :
    ("Angry" ∉ SENTIMENT_CATEGORIES) ∧
    (groupByCategory [⟨some "c1", some "Nice video!", none, none, 0⟩]
      [⟨none, some "Angry"⟩]).ids "Neutral" = [] ∧
    (groupByCategory [⟨some "c1", some "Nice video!", none, none, 0⟩]
      [⟨none, some "Angry"⟩]).ids "Positive" = [] ∧
    (groupByCategory [⟨some "c1", some "Nice video!", none, none, 0⟩]
      [⟨none, some "Angry"⟩]).ids "Critical" = [] ∧
    (groupByCategory [⟨some "c1", some "Nice video!", none, none, 0⟩]
      [⟨none, some "Angry"⟩]).ids "Toxic" = [] := by
  refine ⟨by decide, rfl, rfl, rfl, rfl⟩

/-- C8 amended.  A missing or out-of-set category label is coerced to
`Neutral`, and the Neutral bucket collects exactly the matched entries
whose coerced category is Neutral — so an unknown-category entry is
counted under Neutral provided its id is truthy and matches a valid
fetched comment; entries whose id fails that test are dropped, whatever
their label.  Grouping is a total function, so such values never fail
the pipeline stage. -/
theorem claim_c8_neutral_coercion_amended (valid : List RawComment)
    (cls : List Classification) (c : String) :
    ((groupByCategory valid cls).ids c =
      (cls.filter fun e => isMatched (mkLookup valid) e &&
        (effectiveCategory e == c)).map fun e => e.id.getD "") ∧
    (∀ e : Classification, e.category = none →
      effectiveCategory e = "Neutral") ∧
    (∀ e : Classification, ∀ cat, e.category = some cat →
      cat ∉ SENTIMENT_CATEGORIES → effectiveCategory e = "Neutral") := by
  refine ⟨groupByCategory_ids valid cls c, ?_, ?_⟩
  · intro e he
    unfold effectiveCategory
    rw [he]
    decide
  · intro e cat he hcat
    have hc : SENTIMENT_CATEGORIES.contains cat = false := by
      simpa using hcat
    unfold effectiveCategory
    rw [he]
    simp only [Option.getD_some, hc]
    simp

/-- C8 witness: the coercion applied at a concrete unknown label. -/
theorem claim_c8_witness :
    effectiveCategory ⟨some "c9", some "Angry"⟩ = "Neutral" :=
  (claim_c8_neutral_coercion_amended [] [] "Neutral").2.2
    ⟨some "c9", some "Angry"⟩ "Angry" rfl (by decide)

/-! ## Claim C5 -/

/-- C5.  Whatever the classifier produced, the breakdown has exactly the
four categories Positive, Neutral, Critical, Toxic in that order; a
category with an empty bucket gets count 0 and the fixed no-comments
message; and the entries of empty categories never consult the
summarizer oracle (two oracles agreeing on the non-empty categories give
identical breakdowns). -/
theorem claim_c5_breakdown_fixed_categories (valid : List RawComment)
    (cls : List Classification) (s : String → List String → Option String) :
    ((buildSentimentBreakdown s (groupByCategory valid cls)).map
        BreakdownEntry.category = SENTIMENT_CATEGORIES) ∧
    (buildSentimentBreakdown s (groupByCategory valid cls)).length = 4 ∧
    (∀ c, c ∈ SENTIMENT_CATEGORIES →
      ((groupByCategory valid cls).ids c).length = 0 →
      (⟨c, 0, noCommentsMsg c⟩ : BreakdownEntry) ∈
        buildSentimentBreakdown s (groupByCategory valid cls)) ∧
    (∀ s2 : String → List String → Option String,
      (∀ c, (groupByCategory valid cls).texts c ≠ [] →
        s c ((groupByCategory valid cls).texts c) =
          s2 c ((groupByCategory valid cls).texts c)) →
      buildSentimentBreakdown s (groupByCategory valid cls) =
        buildSentimentBreakdown s2 (groupByCategory valid cls)) := by
  refine ⟨rfl, rfl, ?_, ?_⟩
  · intro c hc hz
    have hlen := groupByCategory_ids_texts_length valid cls c
    rw [hz] at hlen
    have ht : (groupByCategory valid cls).texts c = [] :=
      List.length_eq_zero.mp hlen.symm
    have hm := build_entry_mem s (groupByCategory valid cls) c hc
    rw [ht, hz] at hm
    simpa using hm
  · intro s2 hagree
    unfold buildSentimentBreakdown
    refine List.map_congr_left fun c _ => ?_
    by_cases ht : (groupByCategory valid cls).texts c = []
    · simp [ht]
    · have hne : ((groupByCategory valid cls).texts c).isEmpty = false := by
        simpa using ht
      simp only [hne, Bool.false_eq_true, if_false, hagree c ht]

/-- C5 witness: the theorem applied at a concrete run whose classifier
returned nothing, showing the Toxic entry with count 0 and the fixed
message. -/
theorem claim_c5_witness :
    (⟨"Toxic", 0, noCommentsMsg "Toxic"⟩ : BreakdownEntry) ∈
      buildSentimentBreakdown (fun _ _ => some "sum")
        (groupByCategory [⟨some "c1", some "Nice video!", none, none, 0⟩] []) :=
  (claim_c5_breakdown_fixed_categories
    [⟨some "c1", some "Nice video!", none, none, 0⟩] []
    (fun _ _ => some "sum")).2.2.1 "Toxic" (by decide) rfl

/-! ## Claim C9 -/

/-- C9.  A category whose summarizer call fails (`None`) gets the fixed
could-not-generate fallback message while the breakdown still contains
all four categories in order, and every other category with comments and
a successful call keeps its provider summary. -/
theorem claim_c9_summary_failure_isolated (g : Groups)
    (s : String → List String → Option String) (c : String)
    (hc : c ∈ SENTIMENT_CATEGORIES) (hne : g.texts c ≠ [])
    (hfail : s c (g.texts c) = none) :
    ((⟨c, (g.ids c).length, couldNotMsg c⟩ : BreakdownEntry) ∈
      buildSentimentBreakdown s g) ∧
    ((buildSentimentBreakdown s g).map BreakdownEntry.category =
      SENTIMENT_CATEGORIES) ∧
    (∀ c2 t, c2 ∈ SENTIMENT_CATEGORIES → g.texts c2 ≠ [] →
      s c2 (g.texts c2) = some t →
      (⟨c2, (g.ids c2).length, t⟩ : BreakdownEntry) ∈
        buildSentimentBreakdown s g) := by
  refine ⟨?_, rfl, ?_⟩
  · have hm := build_entry_mem s g c hc
    have hb : (g.texts c).isEmpty = false := by simpa using hne
    rw [hb] at hm
    simp only [Bool.false_eq_true, if_false, hfail] at hm
    exact hm
  · intro c2 t hc2 hne2 hok
    have hm := build_entry_mem s g c2 hc2
    have hb : (g.texts c2).isEmpty = false := by simpa using hne2
    rw [hb] at hm
    simp only [Bool.false_eq_true, if_false, hok] at hm
    exact hm

/-- C9 witness: a concrete grouping where the Toxic summary call fails
and the Positive one succeeds. -/
theorem claim_c9_witness :
    (⟨"Toxic", 1, couldNotMsg "Toxic"⟩ : BreakdownEntry) ∈
      buildSentimentBreakdown
        (fun c _ => if c == "Toxic" then none else some "good themes")
        ⟨fun k => if k = "Toxic" then ["cid1"] else ["cid2"],
         fun k => if k = "Toxic" then ["awful text"] else ["nice text"]⟩ :=
  (claim_c9_summary_failure_isolated
    ⟨fun k => if k = "Toxic" then ["cid1"] else ["cid2"],
     fun k => if k = "Toxic" then ["awful text"] else ["nice text"]⟩
    (fun c _ => if c == "Toxic" then none else some "good themes")
    "Toxic" (by decide) (by simp) (by simp)).1

/-! ## Claim C10 -/

/-- C10.  The detail lookup filters by analysis id AND owning user, so
when no row with the requested id belongs to the requesting user the
result is `none` — the very same result as for an id that exists
nowhere, so a caller cannot distinguish not-owned from not-existing. -/
theorem claim_c10_detail_ownership_opaque (table : List AnalysisRow)
    (aid uid : String)
    (hNotOwned : ∀ r ∈ table, r.analysis_id = aid → r.user_id ≠ uid) :
    get_analysis_detail_by_id table aid uid = none ∧
    ∀ aid2, (∀ r ∈ table, r.analysis_id ≠ aid2) →
      get_analysis_detail_by_id table aid uid =
        get_analysis_detail_by_id table aid2 uid := by
  have hnil : table.filter
      (fun r => r.analysis_id == aid && r.user_id == uid) = [] := by
    rw [List.filter_eq_nil_iff]
    intro r hr
    simp only [Bool.and_eq_true, beq_iff_eq, not_and]
    intro ha
    exact hNotOwned r hr ha
  constructor
  · unfold get_analysis_detail_by_id
    rw [hnil]
  · intro aid2 hNone
    have hnil2 : table.filter
        (fun r => r.analysis_id == aid2 && r.user_id == uid) = [] := by
      rw [List.filter_eq_nil_iff]
      intro r hr
      simp only [Bool.and_eq_true, beq_iff_eq, not_and]
      intro ha
      exact absurd ha (hNone r hr)
    unfold get_analysis_detail_by_id
    rw [hnil, hnil2]

/-- C10 witness: a table holding one analysis owned by another user,
queried by its id and by a nonexistent id. -/
theorem claim_c10_witness :
    get_analysis_detail_by_id [⟨"a1", "owner", "vid", 3⟩] "a1" "intruder" = none ∧
    get_analysis_detail_by_id [⟨"a1", "owner", "vid", 3⟩] "a1" "intruder" =
      get_analysis_detail_by_id [⟨"a1", "owner", "vid", 3⟩] "zzz" "intruder" := by
  have h := claim_c10_detail_ownership_opaque [⟨"a1", "owner", "vid", 3⟩]
    "a1" "intruder" (by decide)
  exact ⟨h.1, h.2 "zzz" (by decide)⟩

/-! ## Claim C4 -/

/-- C4 counterexample.  The claim describes a four-input upsert taking a
thumbnail URL; `get_or_create_video` as defined has exactly the three
parameters `video_id`, `video_title`, `channel_title` and no thumbnail
parameter, so no stored thumbnail field is created or updated by it. -/
theorem claim_c4_counterexample :
    get_or_create_video_param_names =
      ["video_id", "video_title", "channel_title"] ∧
    "thumbnail_url" ∉ get_or_create_video_param_names ∧
    get_or_create_video_param_names.length ≠ 4 := by
  refine ⟨rfl, by decide, by decide⟩

/-- C4 amended.  Restricted to its three actual inputs (id, title,
channel title — there is no thumbnail parameter), the upsert behaves as
claimed: when the storage client does not raise, it creates the record
on first sight of the id, on a later sight it updates the two mutable
fields with never-clobber coalescing (a `None` new value keeps the old
one) and refreshes the retrieval timestamp, returns the record on
success, and returns `None` when creation fails or the client raises. -/
theorem claim_c4_upsert_amended (db : DbOutcome)
    (table : String → Option VideoRow) (now : Nat) (vid : String)
    (title chan : Option String) :
    (db.raises = true →
      (get_or_create_video db table now vid title chan).1 = none) ∧
    (db.raises = false → table vid = none → db.insertOk = true →
      (get_or_create_video db table now vid title chan).1 =
        some ⟨vid, title, chan, now, now, now⟩ ∧
      (get_or_create_video db table now vid title chan).2 vid =
        some ⟨vid, title, chan, now, now, now⟩) ∧
    (db.raises = false → table vid = none → db.insertOk = false →
      (get_or_create_video db table now vid title chan).1 = none) ∧
    (∀ old, db.raises = false → table vid = some old → db.updateOk = true →
      ∃ u, (get_or_create_video db table now vid title chan).1 = some u ∧
        (get_or_create_video db table now vid title chan).2 vid = some u ∧
        u.youtube_video_id = old.youtube_video_id ∧
        u.video_title = pyOrStr title old.video_title ∧
        u.channel_title = pyOrStr chan old.channel_title ∧
        (title = none → u.video_title = old.video_title) ∧
        (chan = none → u.channel_title = old.channel_title) ∧
        u.last_cached_comment_retrieval_timestamp = now ∧
        u.updated_at = now ∧ u.created_at = old.created_at) := by
  refine ⟨?_, ?_, ?_, ?_⟩
  · intro hr
    unfold get_or_create_video
    rw [hr]
    rfl
  · intro hr hnone hins
    unfold get_or_create_video
    rw [hr, hnone, hins]
    simp
  · intro hr hnone hins
    unfold get_or_create_video
    rw [hr, hnone, hins]
    rfl
  · intro old hr hsome hupd
    unfold get_or_create_video
    rw [hr, hsome, hupd]
    refine ⟨_, rfl, by simp, rfl, rfl, rfl, ?_, ?_, rfl, rfl, rfl⟩
    · intro ht
      simp [ht, pyOrStr, truthyStr]
    · intro ht
      simp [ht, pyOrStr, truthyStr]

/-- C4 witness: create on first sight, then coalescing update with a
`None` new title on second sight. -/
theorem claim_c4_witness :
    (get_or_create_video ⟨false, true, true⟩ (fun _ => none) 5 "vidA"
      (some "T") (some "Ch")).1 = some ⟨"vidA", some "T", some "Ch", 5, 5, 5⟩ ∧
    ∃ u, (get_or_create_video ⟨false, true, true⟩
        (fun k => if k = "vidA" then some ⟨"vidA", some "T", some "Ch", 5, 5, 5⟩
          else none) 9 "vidA" none (some "Ch2")).1 = some u ∧
      u.video_title = some "T" ∧
      u.last_cached_comment_retrieval_timestamp = 9 := by
  constructor
  · exact ((claim_c4_upsert_amended ⟨false, true, true⟩ (fun _ => none) 5 "vidA"
      (some "T") (some "Ch")).2.1 rfl rfl rfl).1
  · obtain ⟨u, h1, _, _, _, _, ht, _, hts, _, _⟩ :=
      (claim_c4_upsert_amended ⟨false, true, true⟩
        (fun k => if k = "vidA" then some ⟨"vidA", some "T", some "Ch", 5, 5, 5⟩
          else none) 9 "vidA" none (some "Ch2")).2.2.2
        ⟨"vidA", some "T", some "Ch", 5, 5, 5⟩ rfl (by simp) rfl
    exact ⟨u, h1, ht rfl, hts⟩

/-! ## Claim C1 -/

/-- True exactly on the never-produced success (`.ok (.ok _)`) outcome
of the orchestrator. -/
def isSuccessResponse : Except PyExn PipelineOutcome → Bool
  | .ok (.ok _) => true
  | _ => false

/-- C1.  `get_or_create_video` declares three parameters while the
orchestrator's call site passes four positional arguments, so every run
that passes URL resolution, the metadata fetch and the comment fetch
raises `TypeError` at the persist-video stage instead of returning a
result or an error dictionary — and no environment whatsoever can make
`process_video_analysis` produce its success response. -/
theorem claim_c1_arity_typeerror :
    (get_or_create_video_param_names.length = 3 ∧ process_call_arg_count = 4) ∧
    (∀ (env : PipelineEnv) (url uid : String),
      isSuccessResponse (process_video_analysis env url uid) = false) ∧
    (∀ (env : PipelineEnv) (url uid vid : String),
      extract_video_id url = some vid →
      env.video_details_result.isSome = true →
      (fetch_video_comments vid env.comments_api).isSome = true →
      process_video_analysis env url uid =
        .error (.typeError
          "get_or_create_video() takes 3 positional arguments but 4 were given")) := by
  have harity : ¬(process_call_arg_count = get_or_create_video_param_names.length) := by
    decide
  refine ⟨⟨rfl, rfl⟩, ?_, ?_⟩
  · intro env url uid
    cases hx : extract_video_id url with
    | none => simp [process_video_analysis, hx, isSuccessResponse]
    | some vid =>
      cases hd : env.video_details_result with
      | none => simp [process_video_analysis, hx, hd, isSuccessResponse]
      | some d =>
        cases hc : fetch_video_comments vid env.comments_api with
        | none => simp [process_video_analysis, hx, hd, hc, isSuccessResponse]
        | some cs =>
          simp [process_video_analysis, hx, hd, hc, harity, isSuccessResponse]
  · intro env url uid vid hx hd hc
    obtain ⟨d, hd2⟩ := Option.isSome_iff_exists.mp hd
    obtain ⟨cs, hc2⟩ := Option.isSome_iff_exists.mp hc
    simp [process_video_analysis, hx, hd2, hc2, harity]

/-- C1 witness: a fully healthy environment (video found, comments
fetched, storage and AI all well-behaved) still ends in the TypeError. -/
theorem claim_c1_witness :
    process_video_analysis
      { video_details_result := some ⟨some "T", some "Ch"⟩
        comments_api := .items [⟨some "c1", some "Nice video!", none, none, 0⟩]
        video_db := ⟨false, true, true⟩
        videos_table := fun _ => none
        now := 0
        save_comments_ok := true
        classify_result := some [⟨some "c1", some "Positive"⟩]
        summarize := fun _ _ => some "s"
        save_analysis_result := some "a1"
        comments_by_date_raises := false }
      "https://youtu.be/abc12345678" "user1" =
      .error (.typeError
        "get_or_create_video() takes 3 positional arguments but 4 were given") :=
  claim_c1_arity_typeerror.2.2 _ "https://youtu.be/abc12345678" "user1"
    "abc12345678" rfl rfl rfl

/-! ## Claims C3 and C6: concrete pipeline runs

A shared healthy environment, perturbed one stage at a time. -/

def baseEnv : PipelineEnv :=
  { video_details_result := some ⟨some "T", some "Ch"⟩
    comments_api := .items [⟨some "c1", some "Nice video!", none, none, 0⟩]
    video_db := ⟨false, true, true⟩
    videos_table := fun _ => none
    now := 0
    save_comments_ok := true
    classify_result := some [⟨some "c1", some "Positive"⟩]
    summarize := fun _ _ => some "s"
    save_analysis_result := some "a1"
    comments_by_date_raises := false }

/-- C3 evaluation.  The first three stage failures map to their claimed
error dictionaries (400, 502, 502), but a run in which video-record
persistence would fail (`insertOk = false`) never reaches that code: it
ends in the argument-binding `TypeError`, not in the claimed 500
StorageError dictionary, and the 503/500 mappings of the later stages
are equally unreachable. -/
theorem claim_c3_stage_failure_eval :
    (process_video_analysis baseEnv "not a url" "u" =
      .ok (.err ⟨"Invalid YouTube video URL provided.", 400⟩)) ∧
    (process_video_analysis { baseEnv with video_details_result := none }
      "https://youtu.be/abc12345678" "u" =
      .ok (.err ⟨"Could not fetch video details from YouTube.", 502⟩)) ∧
    (process_video_analysis { baseEnv with comments_api := .raises "quotaExceeded" }
      "https://youtu.be/abc12345678" "u" =
      .ok (.err ⟨"Could not fetch comments from YouTube.", 502⟩)) ∧
    (process_video_analysis { baseEnv with video_db := ⟨false, false, false⟩ }
      "https://youtu.be/abc12345678" "u" =
      .error (.typeError
        "get_or_create_video() takes 3 positional arguments but 4 were given")) :=
  ⟨rfl, rfl, rfl, rfl⟩

/-- C6 evaluation.  `fetch_video_comments` turns a comments-disabled
provider exception into the empty list and any other exception into
`None`; the orchestrator aborts with the 502 dictionary on `None`, and
on the empty list it proceeds past the comment stage — but the run then
raises the argument-binding `TypeError` instead of completing the
claimed successful zero-comment analysis. -/
theorem claim_c6_comments_disabled_eval :
    (fetch_video_comments "abc12345678"
      (.raises "403 commentsDisabled for this video") = some []) ∧
    (fetch_video_comments "abc12345678" (.raises "quotaExceeded") = none) ∧
    (process_video_analysis { baseEnv with comments_api := .raises "quotaExceeded" }
      "https://youtu.be/abc12345678" "u" =
      .ok (.err ⟨"Could not fetch comments from YouTube.", 502⟩)) ∧
    (process_video_analysis
      { baseEnv with comments_api := .raises "403 commentsDisabled for this video" }
      "https://youtu.be/abc12345678" "u" =
      .error (.typeError
        "get_or_create_video() takes 3 positional arguments but 4 were given")) ∧
    (isSuccessResponse (process_video_analysis
      { baseEnv with comments_api := .raises "403 commentsDisabled for this video" }
      "https://youtu.be/abc12345678" "u") = false) :=
  ⟨rfl, rfl, rfl, rfl, rfl⟩

/-! ## Claim C7 -/

/-- Whatever a capture group yields is exactly eleven id-class chars. -/
theorem matchIdAt_shape (rest : List Char) (r : String)
    (h : matchIdAt rest = some r) :
    r.length = 11 ∧ r.data.all isIdChar = true := by
  unfold matchIdAt at h
  by_cases hc : ((rest.take 11).length == 11 && (rest.take 11).all isIdChar) = true
  · rw [if_pos hc] at h
    obtain ⟨h1, h2⟩ := Bool.and_eq_true_iff.mp hc
    cases h
    refine ⟨?_, h2⟩
    rw [String.length_mk]
    simpa using h1
  · rw [if_neg hc] at h
    cases h

theorem matchVariantsHere_shape (vs : List String) (s : List Char) (r : String)
    (h : matchVariantsHere vs s = some r) :
    r.length = 11 ∧ r.data.all isIdChar = true := by
  obtain ⟨v, _, hv⟩ := List.exists_of_findSome?_eq_some h
  by_cases hp : v.data.isPrefixOf s = true
  · rw [if_pos hp] at hv
    exact matchIdAt_shape _ _ hv
  · rw [if_neg hp] at hv
    cases hv

theorem reSearchIdAux_shape (vs : List String) (s : List Char) (r : String)
    (h : reSearchIdAux vs s = some r) :
    r.length = 11 ∧ r.data.all isIdChar = true := by
  induction s with
  | nil => exact matchVariantsHere_shape vs [] r h
  | cons c t ih =>
    unfold reSearchIdAux at h
    cases hm : matchVariantsHere vs (c :: t) with
    | some r2 =>
      rw [hm] at h
      cases h
      exact matchVariantsHere_shape vs (c :: t) r hm
    | none =>
      rw [hm] at h
      exact ih h

/-- Every id produced by the ordered pattern scan is in the
eleven-character class. -/
theorem searchPatterns_shape (url : String) (r : String)
    (h : searchPatterns url = some r) :
    r.length = 11 ∧ r.data.all isIdChar = true := by
  obtain ⟨vs, _, hv⟩ := List.exists_of_findSome?_eq_some h
  exact reSearchIdAux_shape vs url.data r hv

/-- The fallback only returns a truthy (non-empty) `v` value. -/
theorem fallback_query_v_ne_empty (url : String) (v : String)
    (h : fallback_query_v url = some v) : v ≠ "" := by
  unfold fallback_query_v at h
  cases hh : (pyUrlparse url).hostname with
  | none =>
    simp only [hh] at h
    exact Option.noConfusion h
  | some host =>
    simp only [hh] at h
    by_cases hcond : (strContainsSub host "youtube.com" &&
        ((pyUrlparse url).path == "/watch")) = true
    · rw [if_pos hcond] at h
      cases hq : firstQueryValue (pyUrlparse url).query "v" with
      | none =>
        simp only [hq] at h
        exact Option.noConfusion h
      | some v0 =>
        simp only [hq] at h
        by_cases hv0 : (v0 == "") = true
        · rw [if_pos hv0] at h
          simp at h
        · rw [if_neg hv0] at h
          cases h
          simpa using hv0
    · rw [if_neg hcond] at h
      simp at h

/-- C7 counterexample.  On `https://youtube.com/watch?v=abc` no pattern
matches (the `v` value has only 3 characters), yet the generic
query-parameter fallback returns `abc` — an identifier of length 3, not
in the 11-character class, so `extract_video_id` neither returns an
identifier of the claimed shape nor fails. -/
theorem claim_c7_counterexample :
    extract_video_id "https://youtube.com/watch?v=abc" = some "abc" ∧
    searchPatterns "https://youtube.com/watch?v=abc" = none ∧
    ("abc" : String).length = 3 := ⟨rfl, rfl, rfl⟩

/-- C7 amended.  The ordered patterns are tried first and the first
match wins, and any pattern match is an identifier in the 11-character
class; but when no pattern matches, the generic query-parameter fallback
may return the raw `v` query value — any non-empty string, not validated
against the 11-character class — and only failing that does the function
return `None`. -/
theorem claim_c7_resolver_amended (url : String) :
    (∀ vid, searchPatterns url = some vid →
      extract_video_id url = some vid ∧ vid.length = 11 ∧
        vid.data.all isIdChar = true) ∧
    (searchPatterns url = none →
      extract_video_id url = fallback_query_v url) ∧
    (∀ vid, extract_video_id url = some vid →
      (searchPatterns url = some vid ∧ vid.length = 11 ∧
        vid.data.all isIdChar = true) ∨
      (searchPatterns url = none ∧ fallback_query_v url = some vid ∧
        vid ≠ "")) := by
  refine ⟨?_, ?_, ?_⟩
  · intro vid h
    have hs := searchPatterns_shape url vid h
    refine ⟨?_, hs.1, hs.2⟩
    unfold extract_video_id
    rw [h]
  · intro h
    unfold extract_video_id
    rw [h]
  · intro vid h
    unfold extract_video_id at h
    cases hs : searchPatterns url with
    | some v =>
      rw [hs] at h
      cases h
      exact Or.inl ⟨rfl, searchPatterns_shape url vid hs⟩
    | none =>
      rw [hs] at h
      exact Or.inr ⟨rfl, h, fallback_query_v_ne_empty url vid h⟩

/-- C7 witness: the amended theorem applied at the canonical watch URL
(pattern path) and at the counterexample URL (fallback path). -/
theorem claim_c7_witness :
    (extract_video_id "https://www.youtube.com/watch?v=dQw4w9WgXcQ" =
        some "dQw4w9WgXcQ" ∧
      ("dQw4w9WgXcQ" : String).length = 11 ∧
      ("dQw4w9WgXcQ" : String).data.all isIdChar = true) ∧
    extract_video_id "https://youtube.com/watch?v=abc" =
      fallback_query_v "https://youtube.com/watch?v=abc" :=
  ⟨(claim_c7_resolver_amended "https://www.youtube.com/watch?v=dQw4w9WgXcQ").1
      "dQw4w9WgXcQ" rfl,
   (claim_c7_resolver_amended "https://youtube.com/watch?v=abc").2.1 rfl⟩

